import Mathlib

/-!
Shallow embedding of the fluid-sdk CCTP/Permit2 transfer code
(`src/permit2.ts`, which bundles the Permit2 EIP-712 module, an older CCTP
transfer with an attestation polling loop, and the newer CCTP transfer with
delegated authorization).

TypeScript `bigint` fields are modelled as `Int`, `number` chain ids as `Int`,
addresses and hex strings as `String`.  The external `ethers` cryptographic
primitives (EIP-712 keccak hashing, ECDSA sign/recover) are not part of this
repository; they are idealized symbolically: the typed-data digest is the
(domain, value) pair itself (keccak is collision-free in the idealization, so
the hash is injective), signing a digest yields a token recording the signer
address and the digest, and recovery succeeds exactly on the digest that was
signed.  Everything built on top of these primitives (clamping, field layout,
comparisons, control flow) is translated directly from the source.
-/

set_option maxRecDepth 16384

namespace Fluid

/-- `Permit2Domain` from src/permit2.ts. -/
structure Permit2Domain where
  name : String
  version : String
  chainId : Int
  verifyingContract : String
  deriving DecidableEq, Repr

/-- `Permit2Permit` from src/permit2.ts (`value`, `nonce`, `deadline` are
TypeScript bigints, modelled as `Int`). -/
structure Permit2Permit where
  owner : String
  spender : String
  token : String
  value : Int
  nonce : Int
  deadline : Int
  deriving DecidableEq, Repr

/-- The `details` record of the Permit2 `PermitSingle` typed-data value
(token, amount as uint160, expiration and nonce as uint48); in the source the
numeric members are decimal strings, an injective image of the clamped
bigints, so they are kept as `Int`. -/
structure PermitDetails where
  token : String
  amount : Int
  expiration : Int
  nonce : Int
  deriving DecidableEq, Repr

/-- The outer `PermitSingle` typed-data value built in
`generatePermit2Signature` / `verifyPermit2Signature`. -/
structure PermitSingleValue where
  details : PermitDetails
  spender : String
  sigDeadline : Int
  deriving DecidableEq, Repr

/-- Idealized EIP-712 digest: `TypedDataEncoder.hash(domain, types, value)`
from the external ethers library is modelled as the injective encoding that
keeps the domain and the typed-data value themselves. -/
structure Digest where
  domain : Permit2Domain
  value : PermitSingleValue
  deriving DecidableEq, Repr

/-- Idealized ECDSA signature: `signer.signingKey.sign(digest)` produces a
token recording the signer wallet's address and the digest signed. -/
structure ECSignature where
  signer : String
  digest : Digest
  deriving DecidableEq, Repr

/-- A signature string as passed around the code: either a plain literal
string (such as the `"dummy"` placeholder, or garbage) or a serialized
ECDSA signature.  A serialized signature is a 65-byte hex string and is
never equal to a short literal like `"dummy"`, which the two constructors
keep apart. -/
inductive SigString where
  | literal (s : String)
  | sig (s : ECSignature)
  deriving DecidableEq, Repr

/-- `PERMIT2_ADDRESS` from src/permit2.ts. -/
def PERMIT2_ADDRESS : String := "0x000000000022D473030F116dDEE9F6B43aC78BA3"

/-- `BASE_SEPOLIA_CHAIN_ID` from src/permit2.ts. -/
def BASE_SEPOLIA_CHAIN_ID : Int := 84532

/-- `BASE_SEPOLIA_USDC` from src/permit2.ts. -/
def BASE_SEPOLIA_USDC : String := "0x036CbD53842c5426634e7929541eC2318f3dCF7e"

/-- `getPermit2Address()` from src/permit2.ts. -/
def getPermit2Address : String := PERMIT2_ADDRESS

/-- `getPermit2Domain(chainId, permit2Address)` from src/permit2.ts. -/
def getPermit2Domain (chainId : Int) (permit2Address : String := getPermit2Address) :
    Permit2Domain :=
  { name := "Permit2"
    version := "1"
    chainId := chainId
    verifyingContract := permit2Address }

/-- `maxUint160 = BigInt("0xffffffffffffffffffffffffffffffffffffffff")`,
i.e. 2^160 - 1, as in generatePermit2Signature / verifyPermit2Signature. -/
def maxUint160 : Int := 2 ^ 160 - 1

/-- `maxUint48 = BigInt("0xffffffffffff")`, i.e. 2^48 - 1. -/
def maxUint48 : Int := 2 ^ 48 - 1

/-- The typed-data `value` built identically in `generatePermit2Signature`
(lines 123-144) and `verifyPermit2Signature` (lines 174-192): amount is the
value clamped to maxUint160, expiration and nonce are deadline and nonce
clamped to maxUint48, `sigDeadline` is the raw unclamped deadline, and the
permit's `owner` field does not appear anywhere in the value. -/
def mkTypedValue (permit : Permit2Permit) : PermitSingleValue :=
  { details :=
      { token := permit.token
        amount := if permit.value > maxUint160 then maxUint160 else permit.value
        expiration := if permit.deadline > maxUint48 then maxUint48 else permit.deadline
        nonce := if permit.nonce > maxUint48 then maxUint48 else permit.nonce }
    spender := permit.spender
    sigDeadline := permit.deadline }

/-- The digest `TypedDataEncoder.hash(domain, types, value)` computed by both
`generatePermit2Signature` and `verifyPermit2Signature`. -/
def mkDigest (chainId : Int) (permit : Permit2Permit) : Digest :=
  { domain := getPermit2Domain chainId
    value := mkTypedValue permit }

/-- `generatePermit2Signature(signer, permit, chainId)` from src/permit2.ts:
builds the domain, clamps the numeric fields into the typed-data value,
hashes, and signs the digest with the signer's key.  The signer wallet is
identified by its address. -/
def generatePermit2Signature (signerAddress : String) (permit : Permit2Permit)
    (chainId : Int) : SigString :=
  SigString.sig { signer := signerAddress, digest := mkDigest chainId permit }

/-- ASCII lower-casing of one character (`toLowerCase()` effect on the
hex/address strings the code compares). -/
def charToLower (c : Char) : Char :=
  if 'A' ≤ c ∧ c ≤ 'Z' then Char.ofNat (c.toNat + 32) else c

/-- JavaScript `s.toLowerCase()` restricted to ASCII, which covers the
addresses and hex strings this code compares. -/
def strToLower (s : String) : String := String.mk (s.data.map charToLower)

/-- `ethers.recoverAddress(digest, signature)`, idealized: a literal
non-signature string makes recovery throw (modelled as `none`); a real
signature recovers the signer's address exactly when the digest matches the
one signed (on a mismatched digest real ECDSA recovery yields an unrelated
address that, under the collision-free idealization, never equals the honest
owner's, which `none` also captures). -/
def recoverAddress (digest : Digest) (signature : SigString) : Option String :=
  match signature with
  | SigString.literal _ => none
  | SigString.sig s => if s.digest = digest then some s.signer else none

/-- `verifyPermit2Signature(permit, signature, chainId, expectedOwner)` from
src/permit2.ts: recompute the digest, recover the signer, compare
case-insensitively with the expected owner; any exception during recovery
yields `false` (the surrounding try/catch). -/
def verifyPermit2Signature (permit : Permit2Permit) (signature : SigString)
    (chainId : Int) (expectedOwner : String) : Bool :=
  match recoverAddress (mkDigest chainId permit) signature with
  | none => false
  | some recovered => strToLower recovered == strToLower expectedOwner

/-- `createPermit(owner, spender, token, value, nonce, deadlineOffsetSeconds)`
from src/permit2.ts; `now` stands for `Math.floor(Date.now() / 1000)`. -/
def createPermit (owner spender token : String) (value nonce : Int)
    (deadlineOffsetSeconds : Int := 3600) (now : Int := 0) : Permit2Permit :=
  { owner := owner
    spender := spender
    token := token
    value := value
    nonce := nonce
    deadline := now + deadlineOffsetSeconds }

/-- `verifyUserAuthorization(fromAddress, amount, signature, permitData,
chainId)` from the delegated-mode CCTP transfer file bundled in
src/permit2.ts (lines 458-535); `now` stands for
`BigInt(Math.floor(Date.now() / 1000))` captured at the deadline check. -/
def verifyUserAuthorization (fromAddress : String) (amount : Int)
    (signature : SigString) (permitData : Option Permit2Permit)
    (chainId : Option Int) (now : Int) : Bool :=
  if signature = SigString.literal "dummy" then
    true
  else
    match chainId with
    | none => false
    | some cid =>
      match permitData with
      | some pd =>
        if ¬ (strToLower pd.owner == strToLower fromAddress) then false
        else if pd.value ≠ amount then false
        else if pd.deadline < now then false
        else verifyPermit2Signature pd signature cid fromAddress
      | none =>
        let pd := createPermit fromAddress getPermit2Address BASE_SEPOLIA_USDC
          amount 0 3600 now
        verifyPermit2Signature pd signature cid fromAddress

/-!
## JavaScript number semantics

The orchestrator parses the request amount with
`BigInt(Math.floor(parseFloat(request.amount) * 1_000_000))`
(src/permit2.ts line 580).  JavaScript numbers are IEEE-754 binary64
doubles; the model below implements binary64 values exactly as rationals
together with NaN and the infinities, with round-to-nearest, ties-to-even.
-/

/-- A JavaScript number: NaN, a signed infinity, or a finite double given
by an integer mantissa and a power-of-two exponent (`fin m u` denotes
`m * 2 ^ u`; every finite double has this form).  Integer mantissa/exponent
arithmetic is used throughout so that concrete runs evaluate inside the
kernel. -/
inductive JsNumber where
  | nan
  | inf (neg : Bool)
  | fin (m : Int) (u : Int)
  deriving DecidableEq, Repr

/-- Fuel-driven `⌊log₂ n⌋` (0 for `n = 0`), written with structural
recursion so concrete values reduce in the kernel. -/
def natLog2Aux : Nat → Nat → Nat
  | fuel + 1, n => if 2 ≤ n then natLog2Aux fuel (n / 2) + 1 else 0
  | 0, _ => 0

/-- `⌊log₂ n⌋` (0 for `n = 0`). -/
def natLog2 (n : Nat) : Nat := natLog2Aux n n

/-- Decide `2 ^ e ≤ n / d` for naturals `n, d ≥ 1` and an integer `e`,
using only integer arithmetic. -/
def pow2le (e : Int) (n d : Nat) : Bool :=
  if 0 ≤ e then decide (2 ^ e.toNat * d ≤ n) else decide (d ≤ 2 ^ (-e).toNat * n)

/-- `⌊log₂ (n / d)⌋` for `n, d ≥ 1`: start from the difference of the
integer logs (correct within one) and adjust. -/
def floorLog2 (n d : Nat) : Int :=
  let e0 : Int := (natLog2 n : Int) - (natLog2 d : Int)
  if pow2le (e0 + 1) n d then e0 + 1
  else if pow2le e0 n d then e0
  else e0 - 1

/-- Whether the rounded double candidate `m * 2 ^ u` reaches the IEEE-754
binary64 overflow threshold `2 ^ 1024`.  `roundRat` only calls this with a
normalized significand (`2^52 ≤ m ≤ 2^53` on the normal path, `u = -1074`
and `m ≤ 2^52` on the subnormal path), so the threshold test reduces to a
comparison of the exponent with 1024 − 53 and, on the boundary, of the
significand with 2^53. -/
def overflowB (m : Nat) (u : Int) : Bool :=
  if 972 ≤ u then true
  else if u = 971 then decide (2 ^ 53 ≤ m)
  else false

/-- Round the exact rational `num / den` (`den > 0`) to the nearest
IEEE-754 binary64 value: round-to-nearest ties-to-even on a 53-bit
significand, quantum floored at 2^-1074 for subnormals, overflow to the
signed infinity at `2 ^ 1024`. -/
def roundRat (num : Int) (den : Nat) : JsNumber :=
  if num = 0 then JsNumber.fin 0 0
  else
    let n := num.natAbs
    let e := floorLog2 n den
    let u : Int := if e < -1022 then -1074 else e - 52
    let N : Nat := if u ≤ 0 then n * 2 ^ (-u).toNat else n
    let D : Nat := if u ≤ 0 then den else den * 2 ^ u.toNat
    let q := N / D
    let r := N % D
    let m : Nat :=
      if 2 * r < D then q
      else if D < 2 * r then q + 1
      else if q % 2 = 0 then q else q + 1
    if overflowB m u then JsNumber.inf (num < 0)
    else JsNumber.fin (if num < 0 then -(m : Int) else (m : Int)) u

/-- Round the exact dyadic value `M * 2 ^ t` to the nearest binary64. -/
def roundDyadic (M : Int) (t : Int) : JsNumber :=
  if 0 ≤ t then roundRat (M * ((2 ^ t.toNat : Nat) : Int)) 1
  else roundRat M (2 ^ (-t).toNat)

/-- Decide `m1 * 2 ^ u1 < m2 * 2 ^ u2` by shifting to a common exponent. -/
def dyadicLtB (m1 u1 m2 u2 : Int) : Bool :=
  if u1 ≤ u2 then decide (m1 < m2 * ((2 ^ (u2 - u1).toNat : Nat) : Int))
  else decide (m1 * ((2 ^ (u1 - u2).toNat : Nat) : Int) < m2)

/-- IEEE-754 `<` on JavaScript numbers (false whenever NaN is involved). -/
def jsLtB : JsNumber → JsNumber → Bool
  | JsNumber.nan, _ => false
  | _, JsNumber.nan => false
  | JsNumber.inf s, JsNumber.inf t => s && !t
  | JsNumber.inf s, JsNumber.fin _ _ => s
  | JsNumber.fin _ _, JsNumber.inf t => !t
  | JsNumber.fin m1 u1, JsNumber.fin m2 u2 => dyadicLtB m1 u1 m2 u2

/-- Whether a JavaScript number is NaN. -/
def jsIsNan : JsNumber → Bool
  | JsNumber.nan => true
  | _ => false

/-- `Math.min` on two JavaScript numbers (NaN if either is NaN, else the
smaller argument). -/
def jsMin (a b : JsNumber) : JsNumber :=
  if jsIsNan a || jsIsNan b then JsNumber.nan
  else if jsLtB b a then b else a

/-- IEEE-754 multiplication of JavaScript numbers (NaN propagates;
infinity times zero is NaN; finite products are correctly rounded). -/
def jsMul (a b : JsNumber) : JsNumber :=
  match a, b with
  | JsNumber.nan, _ => JsNumber.nan
  | _, JsNumber.nan => JsNumber.nan
  | JsNumber.inf s, JsNumber.inf t => JsNumber.inf (xor s t)
  | JsNumber.inf s, JsNumber.fin y _ =>
      if y = 0 then JsNumber.nan else JsNumber.inf (xor s (decide (y < 0)))
  | JsNumber.fin x _, JsNumber.inf t =>
      if x = 0 then JsNumber.nan else JsNumber.inf (xor (decide (x < 0)) t)
  | JsNumber.fin x u, JsNumber.fin y v => roundDyadic (x * y) (u + v)

/-- `Math.floor` (NaN and infinities pass through; the floor of a finite
double is exactly representable: a normalized double with a negative
exponent is below 2^53, so its floor fits in the significand). -/
def jsFloor : JsNumber → JsNumber
  | JsNumber.nan => JsNumber.nan
  | JsNumber.inf s => JsNumber.inf s
  | JsNumber.fin m u =>
      if 0 ≤ u then JsNumber.fin m u
      else JsNumber.fin (Int.fdiv m ((2 ^ (-u).toNat : Nat) : Int)) 0

/-- `BigInt(x)` for a number argument: throws a RangeError unless the
number is an integral finite value. -/
def jsBigInt : JsNumber → Except String Int
  | JsNumber.nan =>
      Except.error "The number NaN cannot be converted to a BigInt because it is not an integer"
  | JsNumber.inf _ =>
      Except.error "The number Infinity cannot be converted to a BigInt because it is not an integer"
  | JsNumber.fin m u =>
      if 0 ≤ u then Except.ok (m * ((2 ^ u.toNat : Nat) : Int))
      else
        if m % ((2 ^ (-u).toNat : Nat) : Int) = 0 then
          Except.ok (m / ((2 ^ (-u).toNat : Nat) : Int))
        else
          Except.error "The number cannot be converted to a BigInt because it is not an integer"

/-- Digit characters consumed from the front of a character list, as a
numeral, together with how many there were and the rest. -/
def takeDigits : List Char → Nat → Nat → (Nat × Nat × List Char)
  | [], acc, len => (acc, len, [])
  | c :: cs, acc, len =>
      if c.isDigit then takeDigits cs (acc * 10 + (c.toNat - 48)) (len + 1)
      else (acc, len, c :: cs)

/-- The exponent part of a JavaScript decimal literal (`e`/`E`, optional
sign, digits); an exponent marker not followed by a digit is not consumed. -/
def parseExponent (cs : List Char) : Int :=
  match cs with
  | 'e' :: rest | 'E' :: rest =>
    let (sgn, rest') : Int × List Char :=
      match rest with
      | '-' :: r => (-1, r)
      | '+' :: r => (1, r)
      | r => (1, r)
    let (v, len, _) := takeDigits rest' 0 0
    if len = 0 then 0 else sgn * (v : Int)
  | _ => 0

/-- `parseFloat` on a character list: skip leading whitespace, read an
optional sign, `Infinity`, or the longest decimal-literal prefix
(digits, optional fraction, optional exponent), ignore trailing garbage,
and return the correctly rounded double of the literal's exact value;
NaN when no numeric prefix exists. -/
def parseFloatChars (cs : List Char) : JsNumber :=
  let cs := cs.dropWhile (fun c => c.isWhitespace)
  let (neg, cs) : Bool × List Char :=
    match cs with
    | '-' :: rest => (true, rest)
    | '+' :: rest => (false, rest)
    | rest => (false, rest)
  if ['I', 'n', 'f', 'i', 'n', 'i', 't', 'y'].isPrefixOf cs then
    JsNumber.inf neg
  else
    let (ip, ilen, rest) := takeDigits cs 0 0
    let (fp, flen, rest') : Nat × Nat × List Char :=
      match rest with
      | '.' :: r => let (f, fl, r') := takeDigits r 0 0; (f, fl, r')
      | r => (0, 0, r)
    if ilen = 0 ∧ flen = 0 then JsNumber.nan
    else
      let ex := parseExponent rest'
      let num0 : Nat := ip * 10 ^ flen + fp
      let num : Nat := if 0 ≤ ex then num0 * 10 ^ ex.toNat else num0
      let den : Nat := if 0 ≤ ex then 10 ^ flen else 10 ^ flen * 10 ^ (-ex).toNat
      roundRat (if neg then -(num : Int) else (num : Int)) den

/-- `parseFloat` on a string. -/
def jsParseFloat (s : String) : JsNumber := parseFloatChars s.data

/-- `BigInt(Math.floor(parseFloat(amount) * 1_000_000))` from the
orchestrator (src/permit2.ts line 580); a RangeError from `BigInt` on
NaN/Infinity is an exception. -/
def parseAmountSmallestUnits (amount : String) : Except String Int :=
  jsBigInt (jsFloor (jsMul (jsParseFloat amount) (JsNumber.fin 1000000 0)))

instance {ε α : Type} [DecidableEq ε] [DecidableEq α] : DecidableEq (Except ε α) := fun a b =>
  match a, b with
  | Except.error e, Except.error f => decidable_of_iff (e = f) (by simp)
  | Except.ok x, Except.ok y => decidable_of_iff (x = y) (by simp)
  | Except.error _, Except.ok _ => isFalse (by simp)
  | Except.ok _, Except.error _ => isFalse (by simp)

/-!
## String helpers

`String.includes` from JavaScript, used by the attestation loop's
retryability test and needed to state what an error message mentions.
-/

/-- Whether `pat` occurs as a contiguous sublist of the second list. -/
def charsContain (pat : List Char) : List Char → Bool
  | [] => pat.isPrefixOf []
  | c :: t => pat.isPrefixOf (c :: t) || charsContain pat t

/-- JavaScript `hay.includes(pat)`. -/
def strContains (hay pat : String) : Bool := charsContain pat.data hay.data

/-!
## The attestation polling loop

The older CCTP transfer bundled in src/permit2.ts (lines 351-391) polls
`circleTransfer.fetchAttestation(10000)` inside a while loop with a
2000 ms starting backoff, growth factor 1.5 capped at 30000 ms, and an
overall 180000 ms deadline.  The loop is modelled against an environment
trace listing, for each fetch attempt the loop makes, how many
milliseconds the attempt took and whether it returned attestation ids or
threw a message.  The backoff delay is a JavaScript number
(`delay = Math.min(delay * 1.5, 30000)` is floating-point arithmetic);
Node's `setTimeout` truncates a non-integer delay to an integer number of
milliseconds, so elapsed wall-clock time stays integral.
-/

/-- One fetch attempt as seen by the loop: its duration in ms and either
the attestation ids it returned or the message it threw. -/
structure FetchAttempt where
  dur : Nat
  result : Except String (List String)
  deriving DecidableEq, Repr

/-- How the polling loop ended. -/
inductive PollExit where
  | received (ids : List String)
  | timedOut
  | errored (msg : String)
  | outOfTrace
  deriving DecidableEq, Repr

/-- Result of a polling run: the exit, the elapsed wall-clock time at
exit, the backoff delays slept (in order), and the elapsed times at which
each fetch attempt began. -/
structure PollResult where
  exit : PollExit
  elapsed : Nat
  sleeps : List JsNumber
  starts : List Nat
  deriving DecidableEq, Repr

/-- `delay = Math.min(delay * 1.5, 30000)` from the polling loop
(1.5 is the double 3·2⁻¹; both operations are IEEE-754). -/
def nextDelay (d : JsNumber) : JsNumber :=
  jsMin (jsMul d (JsNumber.fin 3 (-1))) (JsNumber.fin 30000 0)

/-- Milliseconds actually slept by `setTimeout(resolve, delay)`: Node
truncates a non-integer delay to an integer and clamps delays below 1 or
above 2^31 − 1 to 1. -/
def sleepMs (d : JsNumber) : Nat :=
  match jsFloor d with
  | JsNumber.fin m u =>
      let v : Int := if 0 ≤ u then m * ((2 ^ u.toNat : Nat) : Int) else 0
      if v < 1 ∨ 2147483647 < v then 1 else v.toNat
  | _ => 1

/-- `error.message?.includes('timeout') || error.message?.includes('not
found')`: the loop's test for the retryable "attestation not ready yet"
condition. -/
def retryableMsg (m : String) : Bool :=
  strContains m "timeout" || strContains m "not found"

/-- The polling loop of the older `transferUsdcViaCctp`
(src/permit2.ts lines 356-391), one recursive step per fetch attempt:
while the elapsed time is under the 180000 ms deadline, fetch; a
non-empty result is returned immediately; an empty result retries with no
sleep; a thrown message first re-checks the remaining time (declaring
timeout when none is left), sleeps the current backoff and grows it by
1.5 capped at 30000 if the message is retryable, and otherwise propagates
the error.  Exiting the while loop without an attestation reaches the
post-loop check, which also declares timeout. -/
def pollLoop : List FetchAttempt → Nat → JsNumber → List JsNumber → List Nat → PollResult
  | [], elapsed, _, sleeps, starts =>
    if elapsed < 180000 then
      ⟨PollExit.outOfTrace, elapsed, sleeps.reverse, starts.reverse⟩
    else
      ⟨PollExit.timedOut, elapsed, sleeps.reverse, starts.reverse⟩
  | a :: rest, elapsed, delay, sleeps, starts =>
    if elapsed < 180000 then
      match a.result with
      | Except.ok ids =>
          if ids.isEmpty then
            pollLoop rest (elapsed + a.dur) delay sleeps (elapsed :: starts)
          else
            ⟨PollExit.received ids, elapsed + a.dur, sleeps.reverse,
              (elapsed :: starts).reverse⟩
      | Except.error m =>
          if (180000 : Int) - ((elapsed + a.dur : Nat) : Int) ≤ 0 then
            ⟨PollExit.timedOut, elapsed + a.dur, sleeps.reverse,
              (elapsed :: starts).reverse⟩
          else if retryableMsg m then
            pollLoop rest (elapsed + a.dur + sleepMs delay) (nextDelay delay)
              (delay :: sleeps) (elapsed :: starts)
          else
            ⟨PollExit.errored m, elapsed + a.dur, sleeps.reverse,
              (elapsed :: starts).reverse⟩
    else
      ⟨PollExit.timedOut, elapsed, sleeps.reverse, starts.reverse⟩

/-- A full polling run: start at elapsed 0 with a 2000 ms backoff. -/
def pollForAttestation (attempts : List FetchAttempt) : PollResult :=
  pollLoop attempts 0 (JsNumber.fin 2000 0) [] []

/-!
## The transfer orchestrator (delegated-authorization version)

`transferUsdcViaCctp` from the newer CCTP transfer bundled in
src/permit2.ts (lines 542-718).  External effects (Wormhole SDK
initialization, signer construction, chain lookup, network query, Circle
transfer construction, quoting, nonce refresh, SDK signer wrapping, the
two chain submissions and the attestation fetch) are supplied by an
environment record giving each call's outcome; the run records which of
the two chain submissions (`initiateTransfer`, `completeTransfer`) were
invoked.
-/

/-- `TransferResult` from src/types.ts.  That file is not in the
repository snapshot; the fields are modelled from the spec (§3) and from
the construction sites in src/permit2.ts: `{ success, sourceTx,
attestationId, destinationTx, error }` with only `success` always set. -/
structure TransferResult where
  success : Bool
  sourceTx : Option String
  attestationId : Option String
  destinationTx : Option String
  error : Option String
  deriving DecidableEq, Repr

/-- `CctpTransferRequest` of the delegated-authorization transfer file
(src/permit2.ts lines 438-447). -/
structure CctpTransferRequest where
  amount : String
  destAddress : Option String
  fromAddress : Option String
  signature : Option SigString
  permitData : Option Permit2Permit
  deriving DecidableEq, Repr

/-- Outcomes of the orchestrator's external calls, in program order, plus
the clock second used for the permit deadline check. -/
structure CctpEnv where
  now : Int
  whInit : Except String Unit
  baseSignerAddr : Except String String
  aptosSignerAddr : Except String String
  getChains : Except String Unit
  networkChainId : Except String Int
  circleCreate : Except String Unit
  quoteResult : Except String Unit
  txCount : Except String Nat
  evmSdkSigner : Except String Unit
  initiateResult : Except String String
  fetchAttestationResult : Except String (List String)
  aptosSdkSigner : Except String Unit
  completeResult : Except String String
  deriving Repr

/-- Which of the two on-chain submissions the run invoked. -/
structure RunTrace where
  initiateCalled : Bool
  completeCalled : Bool
  deriving DecidableEq, Repr

/-- JavaScript truthiness of an optional string (`undefined` and `""` are
falsy), for `!!request.fromAddress`. -/
def strTruthy : Option String → Bool
  | none => false
  | some s => decide (s ≠ "")

/-- JavaScript truthiness of an optional signature string
(`!!request.signature`): a serialized signature is a non-empty hex string
and hence truthy. -/
def sigTruthy : Option SigString → Bool
  | none => false
  | some (SigString.literal s) => decide (s ≠ "")
  | some (SigString.sig _) => true

/-- `error.message || String(error)` in the top-level catch: an `Error`
with an empty message stringifies to the non-empty `"Error"`. -/
def jsErrMessage (m : String) : String := if m = "" then "Error" else m

/-- The wrapped message thrown when the attestation fetch fails
(src/permit2.ts lines 682-689). -/
def attestationFailureMsg (m : String) : String :=
  "Attestation not received after 180 seconds. " ++
  "This can happen if Circle's attestation service is slow. " ++
  "Please check the transaction on Base Sepolia explorer and try again later. " ++
  "Error: " ++ m

/-- The body of the newer `transferUsdcViaCctp` (the content of its
top-level `try`), following the source's order: Wormhole initialization,
signer construction, chain contexts, amount parsing, the delegated-mode
authorization gate, Circle transfer construction, the swallowed quote,
nonce refresh, SDK signer wrapping, `initiateTransfer`, the attestation
fetch with its wrapping catch, the Aptos SDK signer, and
`completeTransfer`.  Returns the `(sourceTx, attestationId,
destinationTx)` triple or the thrown message, together with which
submissions were invoked. -/
def transferUsdcViaCctpAux (env : CctpEnv) (request : CctpTransferRequest) :
    Except String (String × String × String) × RunTrace :=
  match env.whInit with
  | Except.error m => (Except.error m, ⟨false, false⟩)
  | Except.ok _ =>
  match env.baseSignerAddr with
  | Except.error m => (Except.error m, ⟨false, false⟩)
  | Except.ok _baseAddr =>
  match env.aptosSignerAddr with
  | Except.error m => (Except.error m, ⟨false, false⟩)
  | Except.ok aptosAddr =>
  match env.getChains with
  | Except.error m => (Except.error m, ⟨false, false⟩)
  | Except.ok _ =>
  match parseAmountSmallestUnits request.amount with
  | Except.error m => (Except.error m, ⟨false, false⟩)
  | Except.ok amountBigInt =>
  let useUserWallet := strTruthy request.fromAddress && sigTruthy request.signature
  let authz : Except String Unit :=
    if useUserWallet && request.fromAddress.isSome then
      match env.networkChainId with
      | Except.error m => Except.error m
      | Except.ok chainId =>
        match request.signature with
        | none => Except.error "Signature is required when using user wallet"
        | some sg =>
          if verifyUserAuthorization (request.fromAddress.getD "") amountBigInt sg
              request.permitData (some chainId) env.now then
            Except.ok ()
          else
            Except.error "User authorization verification failed"
    else Except.ok ()
  match authz with
  | Except.error m => (Except.error m, ⟨false, false⟩)
  | Except.ok _ =>
  let _recipientAddress :=
    match request.destAddress with
    | some dst => if dst = "" then aptosAddr else dst
    | none => aptosAddr
  match env.circleCreate with
  | Except.error m => (Except.error m, ⟨false, false⟩)
  | Except.ok _ =>
  -- the quote is wrapped in its own try/catch and is non-critical:
  -- both outcomes continue
  match env.txCount with
  | Except.error m => (Except.error m, ⟨false, false⟩)
  | Except.ok _nonce =>
  match env.evmSdkSigner with
  | Except.error m => (Except.error m, ⟨false, false⟩)
  | Except.ok _ =>
  match env.initiateResult with
  | Except.error m => (Except.error m, ⟨true, false⟩)
  | Except.ok sourceTx =>
  match env.fetchAttestationResult with
  | Except.error m => (Except.error (attestationFailureMsg m), ⟨true, false⟩)
  | Except.ok ids =>
  match ids with
  | [] => (Except.error (attestationFailureMsg "Attestation not received after timeout"),
      ⟨true, false⟩)
  | attId :: _ =>
  match env.aptosSdkSigner with
  | Except.error m => (Except.error m, ⟨true, false⟩)
  | Except.ok _ =>
  match env.completeResult with
  | Except.error m => (Except.error m, ⟨true, true⟩)
  | Except.ok destinationTx =>
      (Except.ok (sourceTx, attId, destinationTx), ⟨true, true⟩)

/-- The newer `transferUsdcViaCctp` (src/permit2.ts lines 542-718): run
the body and convert, via the top-level catch, every thrown message into
`{ success: false, error }`; a completed body yields
`{ success: true, sourceTx, attestationId, destinationTx }`. -/
def transferUsdcViaCctp (env : CctpEnv) (request : CctpTransferRequest) :
    TransferResult × RunTrace :=
  match transferUsdcViaCctpAux env request with
  | (Except.ok (sourceTx, attId, destinationTx), tr) =>
      ({ success := true, sourceTx := some sourceTx, attestationId := some attId,
         destinationTx := some destinationTx, error := none }, tr)
  | (Except.error m, tr) =>
      ({ success := false, sourceTx := none, attestationId := none,
         destinationTx := none, error := some (jsErrMessage m) }, tr)

/-!
## Concrete test data

Sample permits, requests and environments used by witnesses and
counterexamples.
-/

/-- A sample permit whose deadline (0) lies in the past for any positive
clock. -/
def samplePermit : Permit2Permit :=
  { owner := "0xa", spender := "0xs", token := "0xt",
    value := 1000000, nonce := 1, deadline := 0 }

/-- A sample permit with an unexpired deadline. -/
def freshPermit : Permit2Permit :=
  { owner := "0xa", spender := "0xs", token := "0xt",
    value := 7, nonce := 1, deadline := 1000 }

/-- A permit whose value exceeds the 160-bit maximum and whose nonce and
deadline exceed the 48-bit maximum. -/
def oversizedPermit : Permit2Permit :=
  { owner := "0xa", spender := "0xs", token := "0xt",
    value := 2 ^ 160, nonce := 2 ^ 48, deadline := 2 ^ 48 }

/-- An environment in which every external call succeeds. -/
def sampleEnv : CctpEnv :=
  { now := 100, whInit := Except.ok (), baseSignerAddr := Except.ok "0xbase",
    aptosSignerAddr := Except.ok "0xaptos", getChains := Except.ok (),
    networkChainId := Except.ok 84532, circleCreate := Except.ok (),
    quoteResult := Except.ok (), txCount := Except.ok 7,
    evmSdkSigner := Except.ok (), initiateResult := Except.ok "0xsrc",
    fetchAttestationResult := Except.ok ["att1"], aptosSdkSigner := Except.ok (),
    completeResult := Except.ok "0xdst" }

/-- A direct-mode transfer request for 1.0 USDC. -/
def sampleDirectReq : CctpTransferRequest :=
  { amount := "1.0", destAddress := none, fromAddress := none,
    signature := none, permitData := none }

/-- A direct-mode request with the non-positive amount "0". -/
def zeroAmountReq : CctpTransferRequest :=
  { amount := "0", destAddress := none, fromAddress := none,
    signature := none, permitData := none }

/-- A direct-mode request with a non-numeric amount. -/
def nonNumericReq : CctpTransferRequest :=
  { amount := "abc", destAddress := none, fromAddress := none,
    signature := none, permitData := none }

/-- A delegated-mode request for 1.0 USDC carrying `samplePermit` (whose
deadline is one hundred seconds in the past at `sampleEnv.now`) and a
cryptographically valid signature by its owner over that very permit. -/
def expiredDelegatedReq : CctpTransferRequest :=
  { amount := "1.0", destAddress := none, fromAddress := some "0xa",
    signature := some (generatePermit2Signature "0xa" samplePermit 84532),
    permitData := some samplePermit }

/-- An attestation-service trace in which every fetch attempt takes the
full 10-second per-attempt timeout and throws the retryable message. -/
def nineTimeouts : List FetchAttempt :=
  List.replicate 9 ⟨10000, Except.error "timeout"⟩

/-- The k-th value of the polling loop's backoff variable: iterates of
`nextDelay` starting from the 2000 ms literal. -/
def delayIter : Nat → JsNumber
  | 0 => JsNumber.fin 2000 0
  | k + 1 => nextDelay (delayIter k)

/-- All values the backoff variable can take — `nextDelay` reaches its
fixed point (30000 ms) after seven steps. -/
def delaySet : List JsNumber := (List.range 8).map delayIter

/-- `IterFrom d ds` says `ds` is the run of successive backoff values
starting at `d`, each followed by its `nextDelay`. -/
inductive IterFrom : JsNumber → List JsNumber → Prop
  | nil (d : JsNumber) : IterFrom d []
  | cons (d : JsNumber) (ds : List JsNumber) :
      IterFrom (nextDelay d) ds → IterFrom d (d :: ds)

/-!
## Helper lemmas
-/

/-- The error message produced by the top-level catch is never empty. -/
theorem jsErrMessage_ne_empty (m : String) : jsErrMessage m ≠ "" := by
  unfold jsErrMessage
  split
  · decide
  · next h => exact h

/-- The set of reachable backoff values is closed under `nextDelay`. -/
theorem delaySet_closed : ∀ d ∈ delaySet, nextDelay d ∈ delaySet := by decide

/-- No reachable backoff value exceeds 30000 ms. -/
theorem delaySet_bounded : ∀ d ∈ delaySet, jsLtB (JsNumber.fin 30000 0) d = false := by
  decide

/-- The initial 2000 ms backoff is a reachable value. -/
theorem initialDelay_mem : JsNumber.fin 2000 0 ∈ delaySet := by decide

/-- A nonempty `IterFrom` run starts with its seed. -/
theorem iterFrom_head {d x : JsNumber} {ds : List JsNumber}
    (h : IterFrom d (x :: ds)) : x = d := by
  cases h
  rfl

/-- Along an `IterFrom` run, each element is the `nextDelay` of its
predecessor. -/
theorem iterFrom_chain {d : JsNumber} {ds : List JsNumber} (h : IterFrom d ds) :
    List.Chain' (fun a b => b = nextDelay a) ds := by
  induction h with
  | nil => exact List.chain'_nil
  | cons d ds h ih =>
    cases h with
    | nil => simp
    | cons _ ds2 h2 => exact List.chain'_cons.mpr ⟨rfl, ih⟩

/-- An `IterFrom` run seeded inside `delaySet` stays inside `delaySet`. -/
theorem iterFrom_mem : ∀ {d : JsNumber} {ds : List JsNumber}, IterFrom d ds →
    d ∈ delaySet → ∀ x ∈ ds, x ∈ delaySet := by
  intro d ds h
  induction h with
  | nil =>
    intro _ x hx
    simp at hx
  | cons d ds h ih =>
    intro hd x hx
    rcases List.mem_cons.mp hx with hEq | hx2
    · subst hEq; exact hd
    · exact ih (delaySet_closed d hd) x hx2

/-- The sleeps recorded by `pollLoop` extend the accumulator with an
`IterFrom` run of the current backoff value. -/
theorem pollLoop_sleeps : ∀ (attempts : List FetchAttempt) (e : Nat) (d : JsNumber)
    (acc : List JsNumber) (st : List Nat),
    ∃ ds, (pollLoop attempts e d acc st).sleeps = acc.reverse ++ ds ∧ IterFrom d ds := by
  intro attempts
  induction attempts with
  | nil =>
    intro e d acc st
    refine ⟨[], ?_, IterFrom.nil d⟩
    by_cases he : e < 180000 <;> simp [pollLoop, he]
  | cons a rest ih =>
    intro e d acc st
    simp only [pollLoop]
    split
    · rcases hr : a.result with m | ids <;> simp only [hr]
      · split
        · exact ⟨[], by simp, IterFrom.nil d⟩
        · split
          · obtain ⟨ds, hds, hIter⟩ :=
              ih (e + a.dur + sleepMs d) (nextDelay d) (d :: acc) (e :: st)
            refine ⟨d :: ds, ?_, IterFrom.cons d ds hIter⟩
            rw [hds]
            simp
          · exact ⟨[], by simp, IterFrom.nil d⟩
      · split
        · exact ih (e + a.dur) d acc (e :: st)
        · exact ⟨[], by simp, IterFrom.nil d⟩
    · exact ⟨[], by simp, IterFrom.nil d⟩

/-- Every fetch attempt recorded by `pollLoop` begins strictly before the
180000 ms deadline. -/
theorem pollLoop_starts : ∀ (attempts : List FetchAttempt) (e : Nat) (d : JsNumber)
    (acc : List JsNumber) (st : List Nat),
    (∀ t ∈ st, t < 180000) →
    ∀ t ∈ (pollLoop attempts e d acc st).starts, t < 180000 := by
  intro attempts
  induction attempts with
  | nil =>
    intro e d acc st hst t ht
    by_cases he : e < 180000 <;> simp [pollLoop, he] at ht <;> exact hst t ht
  | cons a rest ih =>
    intro e d acc st hst t ht
    simp only [pollLoop] at ht
    split at ht
    · next he =>
      have hst2 : ∀ t ∈ e :: st, t < 180000 := by
        intro t2 ht2
        rcases List.mem_cons.mp ht2 with hEq | hm
        · subst hEq; exact he
        · exact hst t2 hm
      rcases hr : a.result with m | ids <;> simp only [hr] at ht
      · split at ht
        · simp at ht
          rcases ht with hm | hEq
          · exact hst t hm
          · subst hEq; exact he
        · split at ht
          · exact ih _ _ _ _ hst2 t ht
          · simp at ht
            rcases ht with hm | hEq
            · exact hst t hm
            · subst hEq; exact he
      · split at ht
        · exact ih _ _ _ _ hst2 t ht
        · simp at ht
          rcases ht with hm | hEq
          · exact hst t hm
          · subst hEq; exact he
    · simp at ht
      exact hst t ht

/-- `pollLoop` declares timeout only once the elapsed time has reached
the 180000 ms deadline. -/
theorem pollLoop_timeout : ∀ (attempts : List FetchAttempt) (e : Nat) (d : JsNumber)
    (acc : List JsNumber) (st : List Nat),
    (pollLoop attempts e d acc st).exit = PollExit.timedOut →
    180000 ≤ (pollLoop attempts e d acc st).elapsed := by
  intro attempts
  induction attempts with
  | nil =>
    intro e d acc st h
    by_cases he : e < 180000 <;> simp [pollLoop, he] at h ⊢
    omega
  | cons a rest ih =>
    intro e d acc st h
    simp only [pollLoop] at h ⊢
    by_cases he : e < 180000
    · rw [if_pos he] at h ⊢
      rcases hr : a.result with m | ids <;> simp only [hr] at h ⊢
      · by_cases hrem : (180000 : Int) - ((e + a.dur : Nat) : Int) ≤ 0
        · rw [if_pos hrem] at h ⊢
          simp only []
          omega
        · by_cases hret : retryableMsg m = true
          · rw [if_neg hrem, if_pos hret] at h ⊢
            exact ih _ _ _ _ h
          · rw [if_neg hrem, if_neg hret] at h ⊢
            simp at h
      · by_cases hemp : ids.isEmpty = true
        · rw [if_pos hemp] at h ⊢
          exact ih _ _ _ _ h
        · rw [if_neg hemp] at h ⊢
          simp at h
    · rw [if_neg he] at h ⊢
      simp only []
      omega

/-- Permit-supplied authorization acceptance: with a supplied permit whose
owner matches case-insensitively, whose value equals the amount, whose
deadline is unexpired, and a signature by the owner over that permit's own
digest, `verifyUserAuthorization` returns true. -/
theorem verifyAuth_accepts (fromAddress signerAddr : String) (amount : Int)
    (pd : Permit2Permit) (cid now : Int)
    (hown : strToLower pd.owner = strToLower fromAddress)
    (hsg : strToLower signerAddr = strToLower fromAddress)
    (hval : pd.value = amount)
    (hdl : ¬ pd.deadline < now) :
    verifyUserAuthorization fromAddress amount
      (SigString.sig ⟨signerAddr, mkDigest cid pd⟩) (some pd) (some cid) now = true := by
  unfold verifyUserAuthorization
  rw [if_neg (by simp)]
  simp [hown, hval, hdl, verifyPermit2Signature, recoverAddress, hsg]

/-!
## Claims
-/

/-- C1, counterexample: the claim says verification returns false if any
field of the permit is mutated between signing and verification, but the
permit's `owner` field never enters the signed typed-data value: mutating
the owner from "0xa" to "0xb" after signing leaves verification
returning true. -/
theorem C1_owner_mutation_counterexample :
    verifyPermit2Signature { samplePermit with owner := "0xb" }
      (generatePermit2Signature "0xa" samplePermit 84532) 84532 "0xa" = true := by
  decide

/-- C1 (amended): a permit signed by owner O verifies true under the same
chain id with expectedOwner O; it verifies false for a case-insensitively
different expected owner, for a different chain id, and for any mutation
that changes the signed typed-data value (token, spender, deadline, and
value/nonce whenever their clamped images differ); mutating the `owner`
field alone never changes the verification outcome because owner is not
part of the signed value. -/
theorem C1_sign_verify_amended (O : String) (p : Permit2Permit) (c : Int)
    (sig : SigString) (hsig : sig = generatePermit2Signature O p c) :
    verifyPermit2Signature p sig c O = true
    ∧ (∀ O2, strToLower O2 ≠ strToLower O → verifyPermit2Signature p sig c O2 = false)
    ∧ (∀ c2, c2 ≠ c → verifyPermit2Signature p sig c2 O = false)
    ∧ (∀ p2, mkTypedValue p2 ≠ mkTypedValue p → verifyPermit2Signature p2 sig c O = false)
    ∧ (∀ o2, verifyPermit2Signature { p with owner := o2 } sig c O
        = verifyPermit2Signature p sig c O) := by
  subst hsig
  refine ⟨?_, ?_, ?_, ?_, ?_⟩
  · simp [verifyPermit2Signature, generatePermit2Signature, recoverAddress]
  · intro O2 h
    simp [verifyPermit2Signature, generatePermit2Signature, recoverAddress]
    exact fun hh => h hh.symm
  · intro c2 h
    simp [verifyPermit2Signature, generatePermit2Signature, recoverAddress,
      mkDigest, getPermit2Domain, Ne.symm h]
  · intro p2 h
    simp [verifyPermit2Signature, generatePermit2Signature, recoverAddress,
      mkDigest, getPermit2Domain, Ne.symm h]
  · intro o2
    rfl

/-- C1, witness: concrete instances of the amended round-trip facts. -/
theorem C1_sign_verify_witness :
    verifyPermit2Signature samplePermit
      (generatePermit2Signature "0xa" samplePermit 84532) 84532 "0xa" = true
    ∧ verifyPermit2Signature samplePermit
      (generatePermit2Signature "0xa" samplePermit 84532) 84532 "0xB" = false
    ∧ verifyPermit2Signature samplePermit
      (generatePermit2Signature "0xa" samplePermit 84532) 1 "0xa" = false
    ∧ verifyPermit2Signature { samplePermit with token := "0xz" }
      (generatePermit2Signature "0xa" samplePermit 84532) 84532 "0xa" = false := by
  have h := C1_sign_verify_amended "0xa" samplePermit 84532 _ rfl
  exact ⟨h.1, h.2.1 "0xB" (by decide), h.2.2.1 1 (by decide),
    h.2.2.2.1 { samplePermit with token := "0xz" } (by decide)⟩

/-- C2, counterexample: a delegated request with a cryptographically
valid signature over a permit whose deadline is in the past fails with no
chain submission, but the returned error is the generic
"User authorization verification failed" — it does not mention the
expiry, contrary to the claim. -/
theorem C2_expired_error_counterexample :
    samplePermit.deadline < sampleEnv.now
    ∧ (transferUsdcViaCctp sampleEnv expiredDelegatedReq).1.success = false
    ∧ (transferUsdcViaCctp sampleEnv expiredDelegatedReq).2 = ⟨false, false⟩
    ∧ (transferUsdcViaCctp sampleEnv expiredDelegatedReq).1.error
        = some "User authorization verification failed"
    ∧ strContains "User authorization verification failed" "expired" = false := by
  decide

/-- C2 (amended): in delegated mode, when the steps before authorization
succeed and authorization verification fails, `transferUsdcViaCctp`
returns success=false with the generic message
"User authorization verification failed" (which does not mention any
expiry) and invokes neither `initiateTransfer` nor `completeTransfer`. -/
theorem C2_auth_failure_aborts_amended
    (env : CctpEnv) (req : CctpTransferRequest) (b a f : String) (sg : SigString)
    (cid amt : Int)
    (hwh : env.whInit = Except.ok ())
    (hb : env.baseSignerAddr = Except.ok b)
    (ha : env.aptosSignerAddr = Except.ok a)
    (hg : env.getChains = Except.ok ())
    (hamt : parseAmountSmallestUnits req.amount = Except.ok amt)
    (hf : req.fromAddress = some f) (hft : f ≠ "")
    (hs : req.signature = some sg) (hst : sigTruthy (some sg) = true)
    (hcid : env.networkChainId = Except.ok cid)
    (hver : verifyUserAuthorization f amt sg req.permitData (some cid) env.now = false) :
    transferUsdcViaCctp env req =
      ({ success := false, sourceTx := none, attestationId := none,
         destinationTx := none,
         error := some "User authorization verification failed" },
       ⟨false, false⟩) := by
  unfold transferUsdcViaCctp transferUsdcViaCctpAux
  rw [hwh, hb, ha, hg, hamt, hf, hs, hcid]
  simp [strTruthy, hst, hft, hver, jsErrMessage]

/-- C2, witness: the amended theorem applied to a concrete delegated
request with an expired permit in an otherwise-successful environment. -/
theorem C2_auth_failure_witness :
    transferUsdcViaCctp sampleEnv expiredDelegatedReq =
      ({ success := false, sourceTx := none, attestationId := none,
         destinationTx := none,
         error := some "User authorization verification failed" },
       ⟨false, false⟩) := by
  exact C2_auth_failure_aborts_amended sampleEnv expiredDelegatedReq
    "0xbase" "0xaptos" "0xa" (generatePermit2Signature "0xa" samplePermit 84532)
    84532 1000000 rfl rfl rfl rfl (by decide) rfl (by decide) rfl (by decide) rfl
    (by decide)

/-- C3, counterexample: the claim says a permit with a past deadline is
always rejected regardless of signature validity, but the literal
placeholder signature "dummy" bypasses every permit check: an expired
permit is accepted. -/
theorem C3_dummy_expired_counterexample :
    samplePermit.deadline < 100
    ∧ verifyUserAuthorization "0xa" 1000000 (SigString.literal "dummy")
        (some samplePermit) (some 84532) 100 = true := by
  decide

/-- C3 (amended): for any supplied permit whose deadline is strictly
earlier than the current time, `verifyUserAuthorization` returns false
for every signature other than the literal bypass token "dummy",
regardless of the signature's cryptographic validity. -/
theorem C3_expired_rejected_amended (fromAddress : String) (amount : Int)
    (sg : SigString) (pd : Permit2Permit) (cid : Option Int) (now : Int)
    (hsg : sg ≠ SigString.literal "dummy") (hd : pd.deadline < now) :
    verifyUserAuthorization fromAddress amount sg (some pd) cid now = false := by
  unfold verifyUserAuthorization
  rw [if_neg hsg]
  cases cid with
  | none => rfl
  | some c =>
    simp only []
    split
    · rfl
    · split
      · rfl
      · simp [hd]

/-- C3, witness: a cryptographically valid signature by the owner over
the expired permit itself is still rejected. -/
theorem C3_expired_rejected_witness :
    verifyUserAuthorization "0xa" 1000000
      (SigString.sig ⟨"0xa", mkDigest 84532 samplePermit⟩)
      (some samplePermit) (some 84532) 100 = false := by
  exact C3_expired_rejected_amended "0xa" 1000000
    (SigString.sig ⟨"0xa", mkDigest 84532 samplePermit⟩) samplePermit
    (some 84532) 100 (by decide) (by decide)

/-- C4, counterexample: the claim names "unauthenticated" as the bypass
token, but the code's bypass literal is "dummy": a verification call with
signature "unauthenticated" (and no chain id) returns false instead of
accepting unconditionally. -/
theorem C4_unauthenticated_counterexample :
    verifyUserAuthorization "0xa" 5 (SigString.literal "unauthenticated")
      none none 0 = false := by
  decide

/-- C4 (amended): the bypass literal is "dummy": with signature "dummy"
the verifier accepts unconditionally, skipping all permit and
cryptographic checks; any other signature is not unconditional (with no
chain id it is rejected). -/
theorem C4_bypass_token_amended (fromAddress : String) (amount : Int)
    (pd : Option Permit2Permit) (cid : Option Int) (now : Int) (sg : SigString)
    (hsg : sg ≠ SigString.literal "dummy") :
    verifyUserAuthorization fromAddress amount (SigString.literal "dummy") pd cid now = true
    ∧ verifyUserAuthorization fromAddress amount sg pd none now = false := by
  constructor
  · unfold verifyUserAuthorization
    rw [if_pos rfl]
  · unfold verifyUserAuthorization
    rw [if_neg hsg]

/-- C4, witness: concrete instances of the amended bypass facts. -/
theorem C4_bypass_token_witness :
    verifyUserAuthorization "0xa" 5 (SigString.literal "dummy")
      none (some 84532) 0 = true
    ∧ verifyUserAuthorization "0xa" 5 (SigString.literal "real-signature")
      none none 0 = false := by
  exact C4_bypass_token_amended "0xa" 5 none (some 84532) 0
    (SigString.literal "real-signature") (by decide)

/-- C5 (confirmed): the typed-data value clamps an oversized `value` to
2^160 − 1 and oversized `nonce`/`deadline` to 2^48 − 1 (the deadline's
clamped image is the `expiration` field); `createPermit` performs no
clamping at construction, so the stored permit's value and nonce equal
the caller's inputs and its deadline is exactly `now + offset`. -/
theorem C5_clamping_confirmed (p : Permit2Permit)
    (o s t : String) (v n off now : Int)
    (hv : p.value > maxUint160) (hn : p.nonce > maxUint48) (hd : p.deadline > maxUint48) :
    (mkTypedValue p).details.amount = maxUint160
    ∧ (mkTypedValue p).details.nonce = maxUint48
    ∧ (mkTypedValue p).details.expiration = maxUint48
    ∧ (createPermit o s t v n off now).value = v
    ∧ (createPermit o s t v n off now).nonce = n
    ∧ (createPermit o s t v n off now).deadline = now + off := by
  refine ⟨?_, ?_, ?_, rfl, rfl, rfl⟩ <;>
    simp [mkTypedValue, createPermit, hv, hn, hd]

/-- C5, witness: a permit with value 2^160 and nonce/deadline 2^48 is
clamped in the typed-data value while `createPermit` stores the caller's
inputs unchanged. -/
theorem C5_clamping_witness :
    (mkTypedValue oversizedPermit).details.amount = maxUint160
    ∧ (mkTypedValue oversizedPermit).details.nonce = maxUint48
    ∧ (createPermit "0xa" "0xs" "0xt" (2 ^ 160) 5 3600 1000).value = 2 ^ 160
    ∧ (createPermit "0xa" "0xs" "0xt" (2 ^ 160) 5 3600 1000).nonce = 5 := by
  have h := C5_clamping_confirmed oversizedPermit
    "0xa" "0xs" "0xt" (2 ^ 160) 5 3600 1000 (by decide) (by decide) (by decide)
  exact ⟨h.1, h.2.1, h.2.2.2.1, h.2.2.2.2.1⟩

/-- C6 (confirmed): `transferUsdcViaCctp` is total over every environment
and request — every failure surfaces as success=false with a non-empty
error message, and every success carries sourceTx, attestationId and
destinationTx. -/
theorem C6_structured_result_confirmed (env : CctpEnv) (req : CctpTransferRequest) :
    ((transferUsdcViaCctp env req).1.success = true →
      (transferUsdcViaCctp env req).1.sourceTx.isSome = true
      ∧ (transferUsdcViaCctp env req).1.attestationId.isSome = true
      ∧ (transferUsdcViaCctp env req).1.destinationTx.isSome = true)
    ∧ ((transferUsdcViaCctp env req).1.success = false →
      ∃ m, (transferUsdcViaCctp env req).1.error = some m ∧ m ≠ "") := by
  unfold transferUsdcViaCctp
  rcases h : transferUsdcViaCctpAux env req with ⟨exc, tr⟩
  rcases exc with m | v
  · simp only [h]
    exact ⟨fun hs => by simp at hs, fun _ => ⟨jsErrMessage m, rfl, jsErrMessage_ne_empty m⟩⟩
  · rcases v with ⟨s, a, d⟩
    simp only [h]
    exact ⟨fun _ => ⟨rfl, rfl, rfl⟩, fun hs => by simp at hs⟩

/-- C6, witness: a fully successful environment yields a success result
with all three identifiers present. -/
theorem C6_structured_result_witness :
    (transferUsdcViaCctp sampleEnv sampleDirectReq).1.sourceTx.isSome = true
    ∧ (transferUsdcViaCctp sampleEnv sampleDirectReq).1.attestationId.isSome = true
    ∧ (transferUsdcViaCctp sampleEnv sampleDirectReq).1.destinationTx.isSome = true := by
  exact (C6_structured_result_confirmed sampleEnv sampleDirectReq).1 (by decide)

/-- C7 (code bug): the claim — and the spec — require the smallest-unit
conversion to be exact for positive 6-decimal inputs, but the code
computes `BigInt(Math.floor(parseFloat(amount) * 1_000_000))` in binary64
floating point: for the 4-decimal input "0.0157" the exact value is
15700 while the code produces 15699 (0.0157 rounds to a double slightly
below 0.0157, and the product rounds to 15699.999999999998). -/
theorem C7_float_conversion_lossy :
    parseAmountSmallestUnits "0.0157" = Except.ok 15699 ∧ (15699 : Int) ≠ 15700 := by
  decide

/-- C8, counterexample: the claim says non-positive amounts are rejected
without submission, but the orchestrator performs no positivity check:
amount "0" parses to 0, the transfer proceeds, and `initiateTransfer` is
invoked (successfully, in an all-ok environment). -/
theorem C8_zero_amount_counterexample :
    parseAmountSmallestUnits "0" = Except.ok 0
    ∧ (transferUsdcViaCctp sampleEnv zeroAmountReq).1.success = true
    ∧ (transferUsdcViaCctp sampleEnv zeroAmountReq).2.initiateCalled = true := by
  decide

/-- C8 (amended): a request whose amount string is non-numeric
(`parseFloat` yields NaN, so the `BigInt` conversion throws) always
returns a failed TransferResult with neither `initiateTransfer` nor
`completeTransfer` invoked; non-positive numeric amounts are not
validated. -/
theorem C8_nonnumeric_rejected_amended (env : CctpEnv) (req : CctpTransferRequest)
    (hnan : jsParseFloat req.amount = JsNumber.nan) :
    (transferUsdcViaCctp env req).1.success = false
    ∧ (transferUsdcViaCctp env req).2 = ⟨false, false⟩ := by
  have hp : parseAmountSmallestUnits req.amount = Except.error
      "The number NaN cannot be converted to a BigInt because it is not an integer" := by
    rw [parseAmountSmallestUnits, hnan]
    rfl
  unfold transferUsdcViaCctp transferUsdcViaCctpAux
  rw [hp]
  rcases h1 : env.whInit with m1 | u1 <;>
    rcases h2 : env.baseSignerAddr with m2 | b <;>
      rcases h3 : env.aptosSignerAddr with m3 | a <;>
        rcases h4 : env.getChains with m4 | u4 <;>
          simp [h1, h2, h3, h4]

/-- C8, witness: the amended theorem at the concrete non-numeric amount
"abc" in an otherwise-successful environment. -/
theorem C8_nonnumeric_rejected_witness :
    (transferUsdcViaCctp sampleEnv nonNumericReq).1.success = false
    ∧ (transferUsdcViaCctp sampleEnv nonNumericReq).2 = ⟨false, false⟩ := by
  exact C8_nonnumeric_rejected_amended sampleEnv nonNumericReq (by decide)

/-- C9, counterexample: with every fetch attempt taking the full
10-second per-attempt timeout and throwing the retryable message, the
loop declares timeout only at 184343 ms of wall-clock time — beyond the
180000 ms deadline, contrary to the claim's bound on total wall-clock
time. -/
theorem C9_deadline_overrun_counterexample :
    (pollForAttestation nineTimeouts).exit = PollExit.timedOut
    ∧ 180000 < (pollForAttestation nineTimeouts).elapsed := by
  decide

/-- C9 (amended): the backoff sequence starts at 2000 ms, each retry's
delay is `Math.min(delay * 1.5, 30000)` of the previous one, and no delay
exceeds 30000 ms; every fetch attempt begins strictly before the
180000 ms deadline and timeout is declared only once the elapsed time has
reached it — but the total wall-clock time may exceed the deadline by up
to one attempt plus one sleep. -/
theorem C9_backoff_amended (attempts : List FetchAttempt) :
    (∀ x, (pollForAttestation attempts).sleeps.head? = some x →
      x = JsNumber.fin 2000 0)
    ∧ List.Chain' (fun a b => b = nextDelay a) (pollForAttestation attempts).sleeps
    ∧ (∀ dl ∈ (pollForAttestation attempts).sleeps,
        jsLtB (JsNumber.fin 30000 0) dl = false)
    ∧ (∀ t ∈ (pollForAttestation attempts).starts, t < 180000)
    ∧ ((pollForAttestation attempts).exit = PollExit.timedOut →
        180000 ≤ (pollForAttestation attempts).elapsed) := by
  obtain ⟨ds, hds, hIter⟩ := pollLoop_sleeps attempts 0 (JsNumber.fin 2000 0) [] []
  have hsl : (pollForAttestation attempts).sleeps = ds := by
    rw [pollForAttestation, hds]
    simp
  refine ⟨?_, ?_, ?_, ?_, ?_⟩
  · intro x hx
    rw [hsl] at hx
    cases hIter with
    | nil => simp at hx
    | cons d ds2 h2 =>
      simp at hx
      exact hx.symm
  · rw [hsl]
    exact iterFrom_chain hIter
  · rw [hsl]
    intro dl hdl
    exact delaySet_bounded dl (iterFrom_mem hIter initialDelay_mem dl hdl)
  · exact pollLoop_starts attempts 0 (JsNumber.fin 2000 0) [] [] (by simp)
  · exact pollLoop_timeout attempts 0 (JsNumber.fin 2000 0) [] []

/-- C9, witness: concrete instances of the amended backoff facts on the
nine-timeout trace. -/
theorem C9_backoff_witness :
    JsNumber.fin 2000 0 = JsNumber.fin 2000 0
    ∧ jsLtB (JsNumber.fin 30000 0) (JsNumber.fin 2000 0) = false
    ∧ 180000 ≤ (pollForAttestation nineTimeouts).elapsed := by
  have h := C9_backoff_amended nineTimeouts
  exact ⟨h.1 (JsNumber.fin 2000 0) (by decide),
    h.2.2.1 (JsNumber.fin 2000 0) (by decide),
    h.2.2.2.2 (by decide)⟩

/-- C10 (confirmed): with a supplied permit, `verifyUserAuthorization`
compares only owner (case-insensitively), value and deadline against the
transfer and delegates the rest to signature verification over the
permit's own digest: whatever spender and token the permit names,
verification returns true when owner matches, value equals the amount,
the deadline is unexpired, and the signature is the owner's over that
very permit. -/
theorem C10_spender_token_ignored_confirmed
    (fromAddress signerAddr : String) (amount : Int) (pd : Permit2Permit)
    (cid now : Int)
    (hown : strToLower pd.owner = strToLower fromAddress)
    (hsg : strToLower signerAddr = strToLower fromAddress)
    (hval : pd.value = amount)
    (hdl : ¬ pd.deadline < now) :
    ∀ spender2 token2,
      verifyUserAuthorization fromAddress amount
        (SigString.sig ⟨signerAddr,
          mkDigest cid { pd with spender := spender2, token := token2 }⟩)
        (some { pd with spender := spender2, token := token2 })
        (some cid) now = true := by
  intro spender2 token2
  exact verifyAuth_accepts fromAddress signerAddr amount
    { pd with spender := spender2, token := token2 } cid now hown hsg hval hdl

/-- C10, witness: a permit naming an unrelated spender and token is
accepted when owner, value and deadline check out and the signature is
valid over that permit. -/
theorem C10_spender_token_witness :
    verifyUserAuthorization "0xa" 7
      (SigString.sig ⟨"0xA",
        mkDigest 84532 { freshPermit with spender := "0xelse", token := "0xother" }⟩)
      (some { freshPermit with spender := "0xelse", token := "0xother" })
      (some 84532) 50 = true := by
  exact C10_spender_token_ignored_confirmed "0xa" "0xA" 7 freshPermit 84532 50
    (by decide) (by decide) (by decide) (by decide) "0xelse" "0xother"

end Fluid

